import Mathlib

/-!
Verification of the Vipari/MPNN three-layer feedforward neural network
(`src/main.go`) against its natural-language specification.

The Go program is shallowly embedded here:

* gonum dense matrices become `GoMat` (runtime dimensions plus an entry
  function); `float64` arithmetic is idealised as real arithmetic;
* gonum panics (`ErrShape`, `ErrZeroLength`, ...) and Go runtime panics
  (slice index out of range) become `Except GoErr` error results;
* the wall-clock seeded entropy source of `initRandArray` is made an
  explicit parameter (`now`), with the library PRNG modelled as a
  deterministic stream of unit-interval values.

Definitions suffixed with `T` are the success payloads of the matrix
helpers: `dot m n = .ok (dotT m n)` whenever the gonum preconditions hold.
Definitions in the `Spec` namespace are written from the specification's
own wording (section 4 of the spec) and are compared against the code's
definitions in the refinement theorems.
-/

noncomputable section

namespace Vipari

/-- Error kinds of the embedded program: `dimensionMismatch` is gonum's
`ErrShape` (the spec's `DimensionMismatch`), `zeroLength` and
`negativeDimension` are the `mat.NewDense` panics, `indexOutOfRange` and
`sliceLenOutOfRange` are Go runtime panics, and `invalidConfiguration` is
the error kind named by the spec for `initializeNetwork` (no code path
produces it). -/
inductive GoErr where
  | dimensionMismatch
  | zeroLength
  | negativeDimension
  | indexOutOfRange
  | sliceLenOutOfRange
  | invalidConfiguration
  deriving DecidableEq

/-- Dense matrix in the style of `gonum/mat.Dense`: runtime dimensions and
a row-major entry function. Entries outside `rows × cols` are junk and are
never observed by in-range reasoning. -/
structure GoMat where
  rows : Nat
  cols : Nat
  data : Nat → Nat → ℝ

/-- Entry function of a dense matrix backed by a row-major flat list, as
built by `mat.NewDense(r, c, list)`: entry `(i, j)` is `list[i*c+j]`. -/
def dataOf (c : Nat) (l : List ℝ) : Nat → Nat → ℝ := fun i j => l.getD (i * c + j) 0

/-- Embedding of `mat.NewDense(r, c, data)`: panics with `ErrZeroLength`
when a dimension is zero, `ErrNegativeDimension` when one is negative, and
`ErrShape` when the backing slice has the wrong length. -/
def NewDense (r c : Int) (d : List ℝ) : Except GoErr GoMat :=
  if r = 0 ∨ c = 0 then .error .zeroLength
  else if r < 0 ∨ c < 0 then .error .negativeDimension
  else if d.length ≠ r.toNat * c.toNat then .error .dimensionMismatch
  else .ok ⟨r.toNat, c.toNat, dataOf c.toNat d⟩

/-- Success payload of the `dot` helper: the `m.rows × n.cols` matrix
product, entry `(i, j)` being `∑ k, m[i,k] * n[k,j]`. -/
def dotT (m n : GoMat) : GoMat :=
  ⟨m.rows, n.cols, fun i j => ∑ k in Finset.range m.cols, m.data i k * n.data k j⟩

/-- Embedding of the `dot` helper of `main.go`: allocates a
`m.rows × n.cols` receiver (`ErrZeroLength` if either is zero) and calls
`Product`, which panics with `ErrShape` when the inner dimensions
disagree. Operands are never written to. -/
def dot (m n : GoMat) : Except GoErr GoMat :=
  if m.rows = 0 ∨ n.cols = 0 then .error .zeroLength
  else if m.cols ≠ n.rows then .error .dimensionMismatch
  else .ok (dotT m n)

/-- Success payload of the `scale` helper: every entry multiplied by the
scalar factor. -/
def scaleT (factor : ℝ) (m : GoMat) : GoMat :=
  ⟨m.rows, m.cols, fun i j => factor * m.data i j⟩

/-- Embedding of the `scale` helper: allocates an `m.rows × m.cols`
receiver and calls `Scale`. -/
def scale (factor : ℝ) (m : GoMat) : Except GoErr GoMat :=
  if m.rows = 0 ∨ m.cols = 0 then .error .zeroLength
  else .ok (scaleT factor m)

/-- Success payload of the `mult` helper: the elementwise product. -/
def multT (m n : GoMat) : GoMat :=
  ⟨m.rows, m.cols, fun i j => m.data i j * n.data i j⟩

/-- Embedding of the `mult` helper: `MulElem` panics with `ErrShape`
unless the operands have identical dimensions. -/
def mult (m n : GoMat) : Except GoErr GoMat :=
  if m.rows = 0 ∨ m.cols = 0 then .error .zeroLength
  else if m.rows ≠ n.rows ∨ m.cols ≠ n.cols then .error .dimensionMismatch
  else .ok (multT m n)

/-- Success payload of the `add` helper: the elementwise sum. -/
def addT (m n : GoMat) : GoMat :=
  ⟨m.rows, m.cols, fun i j => m.data i j + n.data i j⟩

/-- Embedding of the `add` helper. -/
def add (m n : GoMat) : Except GoErr GoMat :=
  if m.rows = 0 ∨ m.cols = 0 then .error .zeroLength
  else if m.rows ≠ n.rows ∨ m.cols ≠ n.cols then .error .dimensionMismatch
  else .ok (addT m n)

/-- Success payload of the `sub` helper: the elementwise difference. -/
def subT (m n : GoMat) : GoMat :=
  ⟨m.rows, m.cols, fun i j => m.data i j - n.data i j⟩

/-- Embedding of the `sub` helper. -/
def sub (m n : GoMat) : Except GoErr GoMat :=
  if m.rows = 0 ∨ m.cols = 0 then .error .zeroLength
  else if m.rows ≠ n.rows ∨ m.cols ≠ n.cols then .error .dimensionMismatch
  else .ok (subT m n)

/-- Success payload of the `apply` helper: the function applied to every
entry (the function also receives the indices, as in `mat.Dense.Apply`). -/
def applyT (fn : Nat → Nat → ℝ → ℝ) (m : GoMat) : GoMat :=
  ⟨m.rows, m.cols, fun i j => fn i j (m.data i j)⟩

/-- Embedding of the `apply` helper of `main.go`. -/
def apply (fn : Nat → Nat → ℝ → ℝ) (m : GoMat) : Except GoErr GoMat :=
  if m.rows = 0 ∨ m.cols = 0 then .error .zeroLength
  else .ok (applyT fn m)

/-- Embedding of gonum's `Matrix.T()`: the transpose view (no allocation,
no dimension check). -/
def transposeT (m : GoMat) : GoMat := ⟨m.cols, m.rows, fun i j => m.data j i⟩

/-- Embedding of `sigmoid(p1, p2 int, x float64)` from `main.go`: the
logistic function; the two index parameters are placeholders for
`Matrix.Apply` and are ignored. -/
def sigmoid (p1 p2 : Nat) (x : ℝ) : ℝ := 1 / (1 + Real.exp (-x))

/-- Embedding of `sigmoidDerivative` from `main.go`: builds a `rows × 1`
all-ones matrix and returns `mult(m, sub(ones, m))`. -/
def sigmoidDerivative (m : GoMat) : Except GoErr GoMat :=
  (NewDense (m.rows : Int) 1 (List.replicate m.rows 1)).bind fun ones =>
  (sub ones m).bind fun s =>
  mult m s

/-- Success payload of `sigmoidDerivative`, with the all-ones column built
from a replicated list exactly as in the code. -/
def onesT (r : Nat) : GoMat := ⟨r, 1, dataOf 1 (List.replicate r 1)⟩

/-- Success payload of `sigmoidDerivative m` for a column matrix. -/
def sigmoidDerivativeT (m : GoMat) : GoMat := multT m (subT (onesT m.rows) m)

/-- Network state of `main.go` (`in` is a Lean keyword, hence `in_`):
layer sizes, the two weight matrices and the learning rate. -/
structure MPNN where
  in_ : Int
  hidden : Int
  out : Int
  hidWeights : GoMat
  outWeights : GoMat
  learnRate : ℝ

/-- Well-formedness of a network state, as established by `initMPNN` and
stated as the data-model invariant of the spec: positive sizes,
`hidWeights` is `hidden × in`, `outWeights` is `out × hidden`. -/
def MPNN.WF (net : MPNN) : Prop :=
  0 < net.in_ ∧ 0 < net.hidden ∧ 0 < net.out ∧
  net.hidWeights.rows = net.hidden.toNat ∧ net.hidWeights.cols = net.in_.toNat ∧
  net.outWeights.rows = net.out.toNat ∧ net.outWeights.cols = net.hidden.toNat

instance (net : MPNN) : Decidable net.WF := by unfold MPNN.WF; infer_instance

/-- Modelled from the spec: the entropy source behind
`rand.NewSource(uint64(time.Now().UnixNano()))`. The PRNG of
`golang.org/x/exp/rand` is third-party code absent from the repository;
the spec only requires a stream of unit-interval uniform values that
differs between seeds, so it is modelled as a deterministic arithmetic
stream with values in `[0, 1)`. -/
def unifStream (seed i : Nat) : ℝ :=
  (((seed * 2654435761 + i * 40503) % 65536 : ℕ) : ℝ) / 65536

/-- Body of the sampling loop of `initRandArray(size, fromSize)` from
`main.go`. The wall-clock instant used to seed the source is the explicit
parameter `now`. Each element is `distuv.Uniform{Min: -1/sqrt(fromSize),
Max: 1/sqrt(fromSize)}.Rand()`, i.e. `Min + (Max - Min) * u` for the next
unit uniform `u`. Go's `make([]float64, size)` panics when `size` is
negative, which the wrapper below reports. -/
def randList (now n : Nat) (fromSize : ℝ) : List ℝ :=
  (List.range n).map fun i =>
    (-1 / Real.sqrt fromSize) +
      ((1 / Real.sqrt fromSize) - (-1 / Real.sqrt fromSize)) * unifStream now i

/-- Embedding of `initRandArray(size, fromSize)` continued: the fallible
wrapper around `randList`. -/
def initRandArray (now : Nat) (size : Int) (fromSize : ℝ) : Except GoErr (List ℝ) :=
  if size < 0 then .error .sliceLenOutOfRange
  else .ok (randList now size.toNat fromSize)

/-- Embedding of Go slice indexing `sizes[i]`: panics (index out of
range) beyond the length. -/
def idx (l : List Int) (i : Nat) : Except GoErr Int :=
  match l.get? i with
  | some v => .ok v
  | none => .error .indexOutOfRange

/-- Embedding of `initMPNN(sizes, learn)` from `main.go`: reads
`sizes[0..2]`, then builds the `hidden × in` weight matrix from
`initRandArray(hidden*in, float64(in))` and the `out × hidden` matrix from
`initRandArray(hidden*out, float64(hidden))`. The two `initRandArray`
calls each seed a fresh source from the clock, hence the two clock
parameters. No argument validation is performed by the code. -/
def initMPNN (now1 now2 : Nat) (sizes : List Int) (learn : ℝ) : Except GoErr MPNN :=
  (idx sizes 0).bind fun s0 =>
  (idx sizes 1).bind fun s1 =>
  (idx sizes 2).bind fun s2 =>
  (initRandArray now1 (s1 * s0) (s0 : ℝ)).bind fun hidData =>
  (NewDense s1 s0 hidData).bind fun hidW =>
  (initRandArray now2 (s1 * s2) (s1 : ℝ)).bind fun outData =>
  (NewDense s2 s1 outData).bind fun outW =>
  .ok ⟨s0, s1, s2, hidW, outW, learn⟩

/-- Embedding of `forwardProp(input, network)` from `main.go`: the input
as a column matrix, then alternately matrix product and sigmoid
application across the two weight layers. -/
def forwardProp (input : List ℝ) (network : MPNN) : Except GoErr GoMat :=
  (NewDense (input.length : Int) 1 input).bind fun inLayer =>
  (dot network.hidWeights inLayer).bind fun inLayerWeightsIn =>
  (apply sigmoid inLayerWeightsIn).bind fun inLayerWeightsOut =>
  (dot network.outWeights inLayerWeightsOut).bind fun hidLayerWeightsIn =>
  apply sigmoid hidLayerWeightsIn

/-- State-threaded form of `forwardProp`, returning the output together
with the network the caller observes afterwards. The body of the Go
function contains no assignment to any field of `network` and every
helper writes only to its freshly allocated receiver, so the translation
returns the network it was given. -/
def forwardPropS (input : List ℝ) (network : MPNN) : Except GoErr (GoMat × MPNN) :=
  (NewDense (input.length : Int) 1 input).bind fun inLayer =>
  (dot network.hidWeights inLayer).bind fun inLayerWeightsIn =>
  (apply sigmoid inLayerWeightsIn).bind fun inLayerWeightsOut =>
  (dot network.outWeights inLayerWeightsOut).bind fun hidLayerWeightsIn =>
  (apply sigmoid hidLayerWeightsIn).bind fun hidLayerWeightsOut =>
  .ok (hidLayerWeightsOut, network)

/-- Embedding of `(net *MPNN).backProp(input, target)` from `main.go`, in
the exact sequential order of the source: inline forward pass, error
terms, then the output-weight assignment followed by the hidden-weight
assignment (the latter reading the already-updated state `net1`). -/
def backProp (net : MPNN) (input target : List ℝ) : Except GoErr MPNN :=
  (NewDense (input.length : Int) 1 input).bind fun inLayer =>
  (dot net.hidWeights inLayer).bind fun inLayerWeightsIn =>
  (apply sigmoid inLayerWeightsIn).bind fun inLayerWeightsOut =>
  (dot net.outWeights inLayerWeightsOut).bind fun hidLayerWeightsIn =>
  (apply sigmoid hidLayerWeightsIn).bind fun hidLayerWeightsOut =>
  (NewDense (target.length : Int) 1 target).bind fun actual =>
  (sub actual hidLayerWeightsOut).bind fun outputError =>
  (dot (transposeT net.outWeights) outputError).bind fun hiddenError =>
  (sigmoidDerivative hidLayerWeightsOut).bind fun sd1 =>
  (mult outputError sd1).bind fun t1 =>
  (dot t1 (transposeT inLayerWeightsOut)).bind fun t2 =>
  (scale net.learnRate t2).bind fun t3 =>
  (add net.outWeights t3).bind fun newOut =>
  let net1 : MPNN := { net with outWeights := newOut }
  (sigmoidDerivative inLayerWeightsOut).bind fun sd2 =>
  (mult hiddenError sd2).bind fun u1 =>
  (dot u1 (transposeT inLayer)).bind fun u2 =>
  (scale net1.learnRate u2).bind fun u3 =>
  (add net1.hidWeights u3).bind fun newHid =>
  .ok { net1 with hidWeights := newHid }

/-- Modelled from the spec (section 4.4, step 7): the variant of
`backProp` that performs the hidden-weight update (step 6) before the
output-weight update (step 5); the spec states that either order must
yield the same final state. -/
def backPropSwapped (net : MPNN) (input target : List ℝ) : Except GoErr MPNN :=
  (NewDense (input.length : Int) 1 input).bind fun inLayer =>
  (dot net.hidWeights inLayer).bind fun inLayerWeightsIn =>
  (apply sigmoid inLayerWeightsIn).bind fun inLayerWeightsOut =>
  (dot net.outWeights inLayerWeightsOut).bind fun hidLayerWeightsIn =>
  (apply sigmoid hidLayerWeightsIn).bind fun hidLayerWeightsOut =>
  (NewDense (target.length : Int) 1 target).bind fun actual =>
  (sub actual hidLayerWeightsOut).bind fun outputError =>
  (dot (transposeT net.outWeights) outputError).bind fun hiddenError =>
  (sigmoidDerivative inLayerWeightsOut).bind fun sd2 =>
  (mult hiddenError sd2).bind fun u1 =>
  (dot u1 (transposeT inLayer)).bind fun u2 =>
  (scale net.learnRate u2).bind fun u3 =>
  (add net.hidWeights u3).bind fun newHid =>
  let net1 : MPNN := { net with hidWeights := newHid }
  (sigmoidDerivative hidLayerWeightsOut).bind fun sd1 =>
  (mult outputError sd1).bind fun t1 =>
  (dot t1 (transposeT inLayerWeightsOut)).bind fun t2 =>
  (scale net1.learnRate t2).bind fun t3 =>
  (add net1.outWeights t3).bind fun newOut =>
  .ok { net1 with outWeights := newOut }

/-- Column matrix holding a list, as built by `mat.NewDense(len, 1, l)`. -/
def inLayerT (l : List ℝ) : GoMat := ⟨l.length, 1, dataOf 1 l⟩

/-- Hidden activation of the forward pass (success payload). -/
def hiddenActT (net : MPNN) (input : List ℝ) : GoMat :=
  applyT sigmoid (dotT net.hidWeights (inLayerT input))

/-- Output activation of the forward pass (success payload). -/
def outputActT (net : MPNN) (input : List ℝ) : GoMat :=
  applyT sigmoid (dotT net.outWeights (hiddenActT net input))

/-- Output error term of `backProp` (success payload): target minus
prediction. -/
def outputErrorT (net : MPNN) (input target : List ℝ) : GoMat :=
  subT (inLayerT target) (outputActT net input)

/-- Hidden error term of `backProp` (success payload), computed from the
pre-update output weights. -/
def hiddenErrorT (net : MPNN) (input target : List ℝ) : GoMat :=
  dotT (transposeT net.outWeights) (outputErrorT net input target)

/-- New output-weight matrix assigned by `backProp` (success payload),
computed from the pre-update state. -/
def newOutT (net : MPNN) (input target : List ℝ) : GoMat :=
  addT net.outWeights (scaleT net.learnRate
    (dotT (multT (outputErrorT net input target) (sigmoidDerivativeT (outputActT net input)))
      (transposeT (hiddenActT net input))))

/-- New hidden-weight matrix assigned by `backProp` (success payload),
computed from the pre-update state. -/
def newHidT (net : MPNN) (input target : List ℝ) : GoMat :=
  addT net.hidWeights (scaleT net.learnRate
    (dotT (multT (hiddenErrorT net input target) (sigmoidDerivativeT (hiddenActT net input)))
      (transposeT (inLayerT input))))

/-- Simultaneous commit of the two weight updates of `backProp`, both
computed from the pre-update weights, as the spec (section 4.4, step 7)
describes the intended final state of `train`. -/
def trainT (net : MPNN) (input target : List ℝ) : MPNN :=
  { net with outWeights := newOutT net input target, hidWeights := newHidT net input target }

/-- Entrywise equality of dense matrices: equal dimensions and equal
entries at every in-range position. -/
def GoMat.EqM (A B : GoMat) : Prop :=
  A.rows = B.rows ∧ A.cols = B.cols ∧
  ∀ i j, i < A.rows → j < A.cols → A.data i j = B.data i j

namespace Spec

/-- Follows the spec (4.1): dot product, the `A.rows × B.cols` matrix
product. -/
def dot (A B : GoMat) : GoMat :=
  ⟨A.rows, B.cols, fun i j => ∑ k in Finset.range A.cols, A.data i k * B.data k j⟩

/-- Follows the spec (4.1): elementwise multiplication. -/
def elementwiseMultiply (A B : GoMat) : GoMat :=
  ⟨A.rows, A.cols, fun i j => A.data i j * B.data i j⟩

/-- Follows the spec (4.1): elementwise addition. -/
def addS (A B : GoMat) : GoMat :=
  ⟨A.rows, A.cols, fun i j => A.data i j + B.data i j⟩

/-- Follows the spec (4.1): elementwise subtraction. -/
def subtract (A B : GoMat) : GoMat :=
  ⟨A.rows, A.cols, fun i j => A.data i j - B.data i j⟩

/-- Follows the spec (4.1): multiply every element by a scalar. -/
def scaleS (k : ℝ) (A : GoMat) : GoMat :=
  ⟨A.rows, A.cols, fun i j => k * A.data i j⟩

/-- Follows the spec (4.1): apply a function to every element. -/
def applyElementwise (f : ℝ → ℝ) (A : GoMat) : GoMat :=
  ⟨A.rows, A.cols, fun i j => f (A.data i j)⟩

/-- Follows the spec: the transpose. -/
def transpose (A : GoMat) : GoMat := ⟨A.cols, A.rows, fun i j => A.data j i⟩

/-- Follows the spec (4.4, step 4): a matrix of ones with the shape of
`A`. -/
def onesLike (A : GoMat) : GoMat := ⟨A.rows, A.cols, fun _ _ => 1⟩

/-- Follows the spec (4.3): the logistic activation. -/
def sigmoidS (x : ℝ) : ℝ := 1 / (1 + Real.exp (-x))

/-- Follows the spec (4.4, step 4): the sigmoid derivative expressed in
terms of the activation values,
`elementwiseMultiply(A, subtract(onesLike(A), A))`. -/
def sigmoidDerivativeS (A : GoMat) : GoMat :=
  elementwiseMultiply A (subtract (onesLike A) A)

/-- Follows the spec (3, 4.3 step 1): a vector is a single-column matrix;
the same row-major dense layout as the code is used. -/
def asVector (l : List ℝ) : GoMat := ⟨l.length, 1, dataOf 1 l⟩

/-- Follows the spec (4.3, steps 2 and 3): the hidden activation of the
forward pass. -/
def hiddenActivation (net : MPNN) (input : List ℝ) : GoMat :=
  applyElementwise sigmoidS (dot net.hidWeights (asVector input))

/-- Follows the spec (4.3, steps 4 and 5): the output activation of the
forward pass. -/
def outputActivation (net : MPNN) (input : List ℝ) : GoMat :=
  applyElementwise sigmoidS (dot net.outWeights (hiddenActivation net input))

/-- Follows the spec (4.4, step 2): `outputError = subtract(target,
outputActivation)`. -/
def outputError (net : MPNN) (input target : List ℝ) : GoMat :=
  subtract (asVector target) (outputActivation net input)

/-- Follows the spec (4.4, step 3): `hiddenError =
dot(transpose(outputWeights), outputError)` with the pre-update output
weights. -/
def hiddenError (net : MPNN) (input target : List ℝ) : GoMat :=
  dot (transpose net.outWeights) (outputError net input target)

/-- Follows the spec (4.4, step 5): the updated output weights,
`outputWeights + learningRate * dot(elementwiseMultiply(outputError,
sigmoidDerivative(outputActivation)), transpose(hiddenActivation))`. -/
def newOutputWeights (net : MPNN) (input target : List ℝ) : GoMat :=
  addS net.outWeights (scaleS net.learnRate
    (dot (elementwiseMultiply (outputError net input target)
        (sigmoidDerivativeS (outputActivation net input)))
      (transpose (hiddenActivation net input))))

/-- Follows the spec (4.4, step 6): the updated hidden weights,
`hiddenWeights + learningRate * dot(elementwiseMultiply(hiddenError,
sigmoidDerivative(hiddenActivation)), transpose(input))`. -/
def newHiddenWeights (net : MPNN) (input target : List ℝ) : GoMat :=
  addS net.hidWeights (scaleS net.learnRate
    (dot (elementwiseMultiply (hiddenError net input target)
        (sigmoidDerivativeS (hiddenActivation net input)))
      (transpose (asVector input))))

/-- Follows the spec (8, gradient-step property): the error norm
`norm(target - forward(network, input))`, defined when the forward pass
succeeds (0 on failure, which well-formed calls never hit). -/
def trainError (net : MPNN) (input target : List ℝ) : ℝ :=
  match forwardProp input net with
  | .ok M => Real.sqrt (∑ i in Finset.range M.rows, ∑ j in Finset.range M.cols,
      ((asVector target).data i j - M.data i j) ^ 2)
  | .error _ => 0

end Spec

section DimLemmas

variable (m n : GoMat)

@[simp] lemma dotT_rows : (dotT m n).rows = m.rows := rfl

@[simp] lemma dotT_cols : (dotT m n).cols = n.cols := rfl

@[simp] lemma scaleT_rows (k : ℝ) : (scaleT k m).rows = m.rows := rfl

@[simp] lemma scaleT_cols (k : ℝ) : (scaleT k m).cols = m.cols := rfl

@[simp] lemma multT_rows : (multT m n).rows = m.rows := rfl

@[simp] lemma multT_cols : (multT m n).cols = m.cols := rfl

@[simp] lemma addT_rows : (addT m n).rows = m.rows := rfl

@[simp] lemma addT_cols : (addT m n).cols = m.cols := rfl

@[simp] lemma subT_rows : (subT m n).rows = m.rows := rfl

@[simp] lemma subT_cols : (subT m n).cols = m.cols := rfl

@[simp] lemma applyT_rows (fn : Nat → Nat → ℝ → ℝ) : (applyT fn m).rows = m.rows := rfl

@[simp] lemma applyT_cols (fn : Nat → Nat → ℝ → ℝ) : (applyT fn m).cols = m.cols := rfl

@[simp] lemma transposeT_rows : (transposeT m).rows = m.cols := rfl

@[simp] lemma transposeT_cols : (transposeT m).cols = m.rows := rfl

@[simp] lemma onesT_rows (r : Nat) : (onesT r).rows = r := rfl

@[simp] lemma onesT_cols (r : Nat) : (onesT r).cols = 1 := rfl

@[simp] lemma sigmoidDerivativeT_rows : (sigmoidDerivativeT m).rows = m.rows := rfl

@[simp] lemma sigmoidDerivativeT_cols : (sigmoidDerivativeT m).cols = m.cols := rfl

@[simp] lemma inLayerT_rows (l : List ℝ) : (inLayerT l).rows = l.length := rfl

@[simp] lemma inLayerT_cols (l : List ℝ) : (inLayerT l).cols = 1 := rfl

@[simp] lemma hiddenActT_rows (net : MPNN) (input : List ℝ) :
    (hiddenActT net input).rows = net.hidWeights.rows := rfl

@[simp] lemma hiddenActT_cols (net : MPNN) (input : List ℝ) :
    (hiddenActT net input).cols = 1 := rfl

@[simp] lemma outputActT_rows (net : MPNN) (input : List ℝ) :
    (outputActT net input).rows = net.outWeights.rows := rfl

@[simp] lemma outputActT_cols (net : MPNN) (input : List ℝ) :
    (outputActT net input).cols = 1 := rfl

@[simp] lemma outputErrorT_rows (net : MPNN) (input target : List ℝ) :
    (outputErrorT net input target).rows = target.length := rfl

@[simp] lemma outputErrorT_cols (net : MPNN) (input target : List ℝ) :
    (outputErrorT net input target).cols = 1 := rfl

@[simp] lemma hiddenErrorT_rows (net : MPNN) (input target : List ℝ) :
    (hiddenErrorT net input target).rows = net.outWeights.cols := rfl

@[simp] lemma hiddenErrorT_cols (net : MPNN) (input target : List ℝ) :
    (hiddenErrorT net input target).cols = 1 := rfl

@[simp] lemma newOutT_rows (net : MPNN) (input target : List ℝ) :
    (newOutT net input target).rows = net.outWeights.rows := rfl

@[simp] lemma newOutT_cols (net : MPNN) (input target : List ℝ) :
    (newOutT net input target).cols = net.outWeights.cols := rfl

@[simp] lemma newHidT_rows (net : MPNN) (input target : List ℝ) :
    (newHidT net input target).rows = net.hidWeights.rows := rfl

@[simp] lemma newHidT_cols (net : MPNN) (input target : List ℝ) :
    (newHidT net input target).cols = net.hidWeights.cols := rfl

end DimLemmas

section BindLemmas

variable {α β : Type}

lemma ok_bind (a : α) (f : α → Except GoErr β) :
    (Except.ok a : Except GoErr α).bind f = f a := rfl

lemma error_bind (e : GoErr) (f : α → Except GoErr β) :
    (Except.error e : Except GoErr α).bind f = .error e := rfl

lemma bind_eq_ok {e : Except GoErr α} {f : α → Except GoErr β} {b : β}
    (h : e.bind f = .ok b) : ∃ a, e = .ok a ∧ f a = .ok b := by
  cases e with
  | ok a => exact ⟨a, rfl, h⟩
  | error err => simp [error_bind] at h

end BindLemmas

section OkLemmas

lemma NewDense_ok (r c : Int) (d : List ℝ) (hr : 0 < r) (hc : 0 < c)
    (hl : d.length = r.toNat * c.toNat) :
    NewDense r c d = .ok ⟨r.toNat, c.toNat, dataOf c.toNat d⟩ := by
  unfold NewDense
  rw [if_neg (by omega), if_neg (by omega), if_neg (fun h => h hl)]

lemma NewDense_vec_ok (l : List ℝ) (h : l.length ≠ 0) :
    NewDense (l.length : Int) 1 l = .ok (inLayerT l) := by
  have := NewDense_ok (l.length : Int) 1 l (by omega) (by omega) (by simp)
  simpa [inLayerT] using this

lemma dot_ok (m n : GoMat) (h1 : m.rows ≠ 0) (h2 : n.cols ≠ 0)
    (h3 : m.cols = n.rows) : dot m n = .ok (dotT m n) := by
  unfold dot
  rw [if_neg (by tauto), if_neg (by simp [h3])]

lemma scale_ok (k : ℝ) (m : GoMat) (h1 : m.rows ≠ 0) (h2 : m.cols ≠ 0) :
    scale k m = .ok (scaleT k m) := by
  unfold scale
  rw [if_neg (by tauto)]

lemma mult_ok (m n : GoMat) (h1 : m.rows ≠ 0) (h2 : m.cols ≠ 0)
    (h3 : m.rows = n.rows) (h4 : m.cols = n.cols) : mult m n = .ok (multT m n) := by
  unfold mult
  rw [if_neg (by tauto), if_neg (by simp [h3, h4])]

lemma add_ok (m n : GoMat) (h1 : m.rows ≠ 0) (h2 : m.cols ≠ 0)
    (h3 : m.rows = n.rows) (h4 : m.cols = n.cols) : add m n = .ok (addT m n) := by
  unfold add
  rw [if_neg (by tauto), if_neg (by simp [h3, h4])]

lemma sub_ok (m n : GoMat) (h1 : m.rows ≠ 0) (h2 : m.cols ≠ 0)
    (h3 : m.rows = n.rows) (h4 : m.cols = n.cols) : sub m n = .ok (subT m n) := by
  unfold sub
  rw [if_neg (by tauto), if_neg (by simp [h3, h4])]

lemma apply_ok (fn : Nat → Nat → ℝ → ℝ) (m : GoMat) (h1 : m.rows ≠ 0)
    (h2 : m.cols ≠ 0) : apply fn m = .ok (applyT fn m) := by
  unfold apply
  rw [if_neg (by tauto)]

lemma sigmoidDerivative_ok (m : GoMat) (hr : m.rows ≠ 0) (hc : m.cols = 1) :
    sigmoidDerivative m = .ok (sigmoidDerivativeT m) := by
  unfold sigmoidDerivative
  have e1 : NewDense (m.rows : Int) 1 (List.replicate m.rows 1) = .ok (onesT m.rows) := by
    have := NewDense_ok (m.rows : Int) 1 (List.replicate m.rows 1) (by omega) (by omega)
      (by simp)
    simpa [onesT] using this
  rw [e1, ok_bind, sub_ok (onesT m.rows) m hr (by simp) (by simp) (by simp [hc]),
    ok_bind, mult_ok m _ hr (by simp [hc]) (by simp) (by simp [hc])]
  rfl

end OkLemmas

section MasterLemmas

variable (net : MPNN) (input target : List ℝ)

/-- Evaluation of the forward pass on a well-formed network and an input
of the right length: it succeeds with the output activation. -/
lemma forwardProp_eq (hWF : net.WF) (hi : input.length = net.in_.toNat) :
    forwardProp input net = .ok (outputActT net input) := by
  obtain ⟨hI, hH, hO, w1, w2, w3, w4⟩ := hWF
  have hin : input.length ≠ 0 := by omega
  have e1 : NewDense (input.length : Int) 1 input = .ok (inLayerT input) :=
    NewDense_vec_ok input hin
  have e2 : dot net.hidWeights (inLayerT input) =
      .ok (dotT net.hidWeights (inLayerT input)) :=
    dot_ok _ _ (by omega) (by simp) (by simp [w2, hi])
  have e3 : apply sigmoid (dotT net.hidWeights (inLayerT input)) =
      .ok (hiddenActT net input) :=
    apply_ok _ _ (by simp; omega) (by simp)
  have e4 : dot net.outWeights (hiddenActT net input) =
      .ok (dotT net.outWeights (hiddenActT net input)) :=
    dot_ok _ _ (by omega) (by simp) (by simp [w4, w1])
  have e5 : apply sigmoid (dotT net.outWeights (hiddenActT net input)) =
      .ok (outputActT net input) :=
    apply_ok _ _ (by simp; omega) (by simp)
  simp only [forwardProp, e1, ok_bind, e2, e3, e4, e5]

/-- Evaluation of the state-threaded forward pass: it succeeds with the
output activation and the unchanged network. -/
lemma forwardPropS_eq (hWF : net.WF) (hi : input.length = net.in_.toNat) :
    forwardPropS input net = .ok (outputActT net input, net) := by
  obtain ⟨hI, hH, hO, w1, w2, w3, w4⟩ := hWF
  have hin : input.length ≠ 0 := by omega
  have e1 : NewDense (input.length : Int) 1 input = .ok (inLayerT input) :=
    NewDense_vec_ok input hin
  have e2 : dot net.hidWeights (inLayerT input) =
      .ok (dotT net.hidWeights (inLayerT input)) :=
    dot_ok _ _ (by omega) (by simp) (by simp [w2, hi])
  have e3 : apply sigmoid (dotT net.hidWeights (inLayerT input)) =
      .ok (hiddenActT net input) :=
    apply_ok _ _ (by simp; omega) (by simp)
  have e4 : dot net.outWeights (hiddenActT net input) =
      .ok (dotT net.outWeights (hiddenActT net input)) :=
    dot_ok _ _ (by omega) (by simp) (by simp [w4, w1])
  have e5 : apply sigmoid (dotT net.outWeights (hiddenActT net input)) =
      .ok (outputActT net input) :=
    apply_ok _ _ (by simp; omega) (by simp)
  simp only [forwardPropS, e1, ok_bind, e2, e3, e4, e5]

/-- Evaluation of `backProp` on a well-formed network with input and
target of the right lengths: it succeeds, and the final state is the
simultaneous commit `trainT` of the two updates computed from the
pre-update weights. -/
lemma backProp_eq (hWF : net.WF) (hi : input.length = net.in_.toNat)
    (ht : target.length = net.out.toNat) :
    backProp net input target = .ok (trainT net input target) := by
  obtain ⟨hI, hH, hO, w1, w2, w3, w4⟩ := hWF
  have hin : input.length ≠ 0 := by omega
  have htn : target.length ≠ 0 := by omega
  have e1 : NewDense (input.length : Int) 1 input = .ok (inLayerT input) :=
    NewDense_vec_ok input hin
  have e2 : dot net.hidWeights (inLayerT input) =
      .ok (dotT net.hidWeights (inLayerT input)) :=
    dot_ok _ _ (by omega) (by simp) (by simp [w2, hi])
  have e3 : apply sigmoid (dotT net.hidWeights (inLayerT input)) =
      .ok (hiddenActT net input) :=
    apply_ok _ _ (by simp; omega) (by simp)
  have e4 : dot net.outWeights (hiddenActT net input) =
      .ok (dotT net.outWeights (hiddenActT net input)) :=
    dot_ok _ _ (by omega) (by simp) (by simp [w4, w1])
  have e5 : apply sigmoid (dotT net.outWeights (hiddenActT net input)) =
      .ok (outputActT net input) :=
    apply_ok _ _ (by simp; omega) (by simp)
  have e6 : NewDense (target.length : Int) 1 target = .ok (inLayerT target) :=
    NewDense_vec_ok target htn
  have e7 : sub (inLayerT target) (outputActT net input) =
      .ok (outputErrorT net input target) :=
    sub_ok _ _ (by simp [ht]; omega) (by simp) (by simp [ht, w3]) (by simp)
  have e8 : dot (transposeT net.outWeights) (outputErrorT net input target) =
      .ok (hiddenErrorT net input target) :=
    dot_ok _ _ (by simp [w4]; omega) (by simp) (by simp [w3, ht])
  have e9 : sigmoidDerivative (outputActT net input) =
      .ok (sigmoidDerivativeT (outputActT net input)) :=
    sigmoidDerivative_ok _ (by simp; omega) (by simp)
  have e10 : mult (outputErrorT net input target) (sigmoidDerivativeT (outputActT net input)) =
      .ok (multT (outputErrorT net input target) (sigmoidDerivativeT (outputActT net input))) :=
    mult_ok _ _ (by simp [ht]; omega) (by simp) (by simp [ht, w3]) (by simp)
  have e11 : dot (multT (outputErrorT net input target)
        (sigmoidDerivativeT (outputActT net input))) (transposeT (hiddenActT net input)) =
      .ok (dotT (multT (outputErrorT net input target)
        (sigmoidDerivativeT (outputActT net input))) (transposeT (hiddenActT net input))) :=
    dot_ok _ _ (by simp [ht]; omega) (by simp [w1]; omega) (by simp)
  have e12 : scale net.learnRate (dotT (multT (outputErrorT net input target)
        (sigmoidDerivativeT (outputActT net input))) (transposeT (hiddenActT net input))) =
      .ok (scaleT net.learnRate (dotT (multT (outputErrorT net input target)
        (sigmoidDerivativeT (outputActT net input))) (transposeT (hiddenActT net input)))) :=
    scale_ok _ _ (by simp [ht]; omega) (by simp [w1]; omega)
  have e13 : add net.outWeights (scaleT net.learnRate (dotT (multT (outputErrorT net input target)
        (sigmoidDerivativeT (outputActT net input))) (transposeT (hiddenActT net input)))) =
      .ok (newOutT net input target) :=
    add_ok _ _ (by omega) (by simp [w4]; omega) (by simp [w3, ht]) (by simp [w4, w1])
  have e14 : sigmoidDerivative (hiddenActT net input) =
      .ok (sigmoidDerivativeT (hiddenActT net input)) :=
    sigmoidDerivative_ok _ (by simp; omega) (by simp)
  have e15 : mult (hiddenErrorT net input target) (sigmoidDerivativeT (hiddenActT net input)) =
      .ok (multT (hiddenErrorT net input target) (sigmoidDerivativeT (hiddenActT net input))) :=
    mult_ok _ _ (by simp [w4]; omega) (by simp) (by simp [w4, w1]) (by simp)
  have e16 : dot (multT (hiddenErrorT net input target)
        (sigmoidDerivativeT (hiddenActT net input))) (transposeT (inLayerT input)) =
      .ok (dotT (multT (hiddenErrorT net input target)
        (sigmoidDerivativeT (hiddenActT net input))) (transposeT (inLayerT input))) :=
    dot_ok _ _ (by simp [w4]; omega) (by simpa using hin) (by simp)
  have e17 : scale net.learnRate (dotT (multT (hiddenErrorT net input target)
        (sigmoidDerivativeT (hiddenActT net input))) (transposeT (inLayerT input))) =
      .ok (scaleT net.learnRate (dotT (multT (hiddenErrorT net input target)
        (sigmoidDerivativeT (hiddenActT net input))) (transposeT (inLayerT input)))) :=
    scale_ok _ _ (by simp [w4]; omega) (by simpa using hin)
  have e18 : add net.hidWeights (scaleT net.learnRate (dotT (multT (hiddenErrorT net input target)
        (sigmoidDerivativeT (hiddenActT net input))) (transposeT (inLayerT input)))) =
      .ok (newHidT net input target) :=
    add_ok _ _ (by omega) (by simp [w2]; omega) (by simp [w4, w1]) (by simp [w2, hi])
  unfold backProp
  rw [e1]; dsimp only [Except.bind]
  rw [e2]; dsimp only [Except.bind]
  rw [e3]; dsimp only [Except.bind]
  rw [e4]; dsimp only [Except.bind]
  rw [e5]; dsimp only [Except.bind]
  rw [e6]; dsimp only [Except.bind]
  rw [e7]; dsimp only [Except.bind]
  rw [e8]; dsimp only [Except.bind]
  rw [e9]; dsimp only [Except.bind]
  rw [e10]; dsimp only [Except.bind]
  rw [e11]; dsimp only [Except.bind]
  rw [e12]; dsimp only [Except.bind]
  rw [e13]; dsimp only [Except.bind]
  rw [e14]; dsimp only [Except.bind]
  rw [e15]; dsimp only [Except.bind]
  rw [e16]; dsimp only [Except.bind]
  rw [e17]; dsimp only [Except.bind]
  rw [e18]; dsimp only [Except.bind]
  rfl

/-- Evaluation of the swapped-order variant: it succeeds with the same
simultaneous commit. -/
lemma backPropSwapped_eq (hWF : net.WF) (hi : input.length = net.in_.toNat)
    (ht : target.length = net.out.toNat) :
    backPropSwapped net input target = .ok (trainT net input target) := by
  obtain ⟨hI, hH, hO, w1, w2, w3, w4⟩ := hWF
  have hin : input.length ≠ 0 := by omega
  have htn : target.length ≠ 0 := by omega
  have e1 : NewDense (input.length : Int) 1 input = .ok (inLayerT input) :=
    NewDense_vec_ok input hin
  have e2 : dot net.hidWeights (inLayerT input) =
      .ok (dotT net.hidWeights (inLayerT input)) :=
    dot_ok _ _ (by omega) (by simp) (by simp [w2, hi])
  have e3 : apply sigmoid (dotT net.hidWeights (inLayerT input)) =
      .ok (hiddenActT net input) :=
    apply_ok _ _ (by simp; omega) (by simp)
  have e4 : dot net.outWeights (hiddenActT net input) =
      .ok (dotT net.outWeights (hiddenActT net input)) :=
    dot_ok _ _ (by omega) (by simp) (by simp [w4, w1])
  have e5 : apply sigmoid (dotT net.outWeights (hiddenActT net input)) =
      .ok (outputActT net input) :=
    apply_ok _ _ (by simp; omega) (by simp)
  have e6 : NewDense (target.length : Int) 1 target = .ok (inLayerT target) :=
    NewDense_vec_ok target htn
  have e7 : sub (inLayerT target) (outputActT net input) =
      .ok (outputErrorT net input target) :=
    sub_ok _ _ (by simp [ht]; omega) (by simp) (by simp [ht, w3]) (by simp)
  have e8 : dot (transposeT net.outWeights) (outputErrorT net input target) =
      .ok (hiddenErrorT net input target) :=
    dot_ok _ _ (by simp [w4]; omega) (by simp) (by simp [w3, ht])
  have e9 : sigmoidDerivative (outputActT net input) =
      .ok (sigmoidDerivativeT (outputActT net input)) :=
    sigmoidDerivative_ok _ (by simp; omega) (by simp)
  have e10 : mult (outputErrorT net input target) (sigmoidDerivativeT (outputActT net input)) =
      .ok (multT (outputErrorT net input target) (sigmoidDerivativeT (outputActT net input))) :=
    mult_ok _ _ (by simp [ht]; omega) (by simp) (by simp [ht, w3]) (by simp)
  have e11 : dot (multT (outputErrorT net input target)
        (sigmoidDerivativeT (outputActT net input))) (transposeT (hiddenActT net input)) =
      .ok (dotT (multT (outputErrorT net input target)
        (sigmoidDerivativeT (outputActT net input))) (transposeT (hiddenActT net input))) :=
    dot_ok _ _ (by simp [ht]; omega) (by simp [w1]; omega) (by simp)
  have e12 : scale net.learnRate (dotT (multT (outputErrorT net input target)
        (sigmoidDerivativeT (outputActT net input))) (transposeT (hiddenActT net input))) =
      .ok (scaleT net.learnRate (dotT (multT (outputErrorT net input target)
        (sigmoidDerivativeT (outputActT net input))) (transposeT (hiddenActT net input)))) :=
    scale_ok _ _ (by simp [ht]; omega) (by simp [w1]; omega)
  have e13 : add net.outWeights (scaleT net.learnRate (dotT (multT (outputErrorT net input target)
        (sigmoidDerivativeT (outputActT net input))) (transposeT (hiddenActT net input)))) =
      .ok (newOutT net input target) :=
    add_ok _ _ (by omega) (by simp [w4]; omega) (by simp [w3, ht]) (by simp [w4, w1])
  have e14 : sigmoidDerivative (hiddenActT net input) =
      .ok (sigmoidDerivativeT (hiddenActT net input)) :=
    sigmoidDerivative_ok _ (by simp; omega) (by simp)
  have e15 : mult (hiddenErrorT net input target) (sigmoidDerivativeT (hiddenActT net input)) =
      .ok (multT (hiddenErrorT net input target) (sigmoidDerivativeT (hiddenActT net input))) :=
    mult_ok _ _ (by simp [w4]; omega) (by simp) (by simp [w4, w1]) (by simp)
  have e16 : dot (multT (hiddenErrorT net input target)
        (sigmoidDerivativeT (hiddenActT net input))) (transposeT (inLayerT input)) =
      .ok (dotT (multT (hiddenErrorT net input target)
        (sigmoidDerivativeT (hiddenActT net input))) (transposeT (inLayerT input))) :=
    dot_ok _ _ (by simp [w4]; omega) (by simpa using hin) (by simp)
  have e17 : scale net.learnRate (dotT (multT (hiddenErrorT net input target)
        (sigmoidDerivativeT (hiddenActT net input))) (transposeT (inLayerT input))) =
      .ok (scaleT net.learnRate (dotT (multT (hiddenErrorT net input target)
        (sigmoidDerivativeT (hiddenActT net input))) (transposeT (inLayerT input)))) :=
    scale_ok _ _ (by simp [w4]; omega) (by simpa using hin)
  have e18 : add net.hidWeights (scaleT net.learnRate (dotT (multT (hiddenErrorT net input target)
        (sigmoidDerivativeT (hiddenActT net input))) (transposeT (inLayerT input)))) =
      .ok (newHidT net input target) :=
    add_ok _ _ (by omega) (by simp [w2]; omega) (by simp [w4, w1]) (by simp [w2, hi])
  unfold backPropSwapped
  rw [e1]; dsimp only [Except.bind]
  rw [e2]; dsimp only [Except.bind]
  rw [e3]; dsimp only [Except.bind]
  rw [e4]; dsimp only [Except.bind]
  rw [e5]; dsimp only [Except.bind]
  rw [e6]; dsimp only [Except.bind]
  rw [e7]; dsimp only [Except.bind]
  rw [e8]; dsimp only [Except.bind]
  rw [e14]; dsimp only [Except.bind]
  rw [e15]; dsimp only [Except.bind]
  rw [e16]; dsimp only [Except.bind]
  rw [e17]; dsimp only [Except.bind]
  rw [e18]; dsimp only [Except.bind]
  rw [e9]; dsimp only [Except.bind]
  rw [e10]; dsimp only [Except.bind]
  rw [e11]; dsimp only [Except.bind]
  rw [e12]; dsimp only [Except.bind]
  rw [e13]; dsimp only [Except.bind]
  rfl

end MasterLemmas

section Helpers

lemma getD_replicate_one (r i : Nat) (h : i < r) :
    (List.replicate r (1:ℝ)).getD i 0 = 1 := by
  rw [List.getD_eq_getElem _ _ (by simpa using h)]
  simp

lemma sigmoid_pos (p1 p2 : Nat) (x : ℝ) : 0 < sigmoid p1 p2 x := by
  unfold sigmoid
  positivity

lemma sigmoid_lt_one (p1 p2 : Nat) (x : ℝ) : sigmoid p1 p2 x < 1 := by
  unfold sigmoid
  rw [div_lt_one (by positivity)]
  linarith [Real.exp_pos (-x)]

/-- All-zero matrix, used to build concrete test networks (the spec's
Scenario B fixes weights to zero). -/
def zeroMat (r c : Nat) : GoMat := ⟨r, c, fun _ _ => 0⟩

/-- Concrete 1-1-1 network with zero weights and learning rate 0.1, used
as the concrete instance for witnesses and counterexamples. -/
def testNet : MPNN := ⟨1, 1, 1, zeroMat 1 1, zeroMat 1 1, 1/10⟩

/-- Concrete 2 × 3 matrix. -/
def mat23 : GoMat := ⟨2, 3, fun _ _ => 1⟩

/-- Concrete 4 × 2 matrix. -/
def mat42 : GoMat := ⟨4, 2, fun _ _ => 2⟩

/-- Concrete 3 × 2 matrix. -/
def mat32 : GoMat := ⟨3, 2, fun _ _ => 3⟩

end Helpers

/-- C1: on every well-formed network state with input and target of the
correct lengths, `backProp` succeeds and replaces the two weight matrices
exactly by the spec's formulas: the new output weights are the old ones
plus `learningRate * dot(elementwiseMultiply(outputError,
sigmoidDerivative(outputActivation)), transpose(hiddenActivation))`, and
the new hidden weights are the old ones plus `learningRate *
dot(elementwiseMultiply(hiddenError, sigmoidDerivative(hiddenActivation)),
transpose(input))`, where `outputError = target - outputActivation` and
the activations are those of the forward pass on the pre-update
weights. -/
theorem C1_train_updates_match_spec_formulas (net : MPNN) (input target : List ℝ)
    (hWF : net.WF) (hi : input.length = net.in_.toNat)
    (ht : target.length = net.out.toNat) :
    ∃ net', backProp net input target = .ok net' ∧
      net'.outWeights.EqM (Spec.newOutputWeights net input target) ∧
      net'.hidWeights.EqM (Spec.newHiddenWeights net input target) := by
  refine ⟨trainT net input target, backProp_eq net input target hWF hi ht,
    ⟨rfl, rfl, ?_⟩, ⟨rfl, rfl, ?_⟩⟩
  · intro i j hi1 hj1
    have hi2 : i < net.outWeights.rows := hi1
    simp only [trainT, newOutT, Spec.newOutputWeights, addT, Spec.addS, scaleT, Spec.scaleS,
      dotT, Spec.dot, multT, Spec.elementwiseMultiply, subT, Spec.subtract, transposeT,
      Spec.transpose, applyT, Spec.applyElementwise, sigmoidDerivativeT, Spec.sigmoidDerivativeS,
      onesT, Spec.onesLike, inLayerT, Spec.asVector, hiddenActT, Spec.hiddenActivation,
      outputActT, Spec.outputActivation, outputErrorT, Spec.outputError, hiddenErrorT,
      Spec.hiddenError, sigmoid, Spec.sigmoidS, dataOf, Finset.sum_range_one, mul_one,
      add_zero, Nat.mul_one, Nat.add_zero]
    rw [getD_replicate_one _ _ hi2]
  · intro i j hi1 hj1
    have hi2 : i < net.hidWeights.rows := hi1
    simp only [trainT, newHidT, Spec.newHiddenWeights, addT, Spec.addS, scaleT, Spec.scaleS,
      dotT, Spec.dot, multT, Spec.elementwiseMultiply, subT, Spec.subtract, transposeT,
      Spec.transpose, applyT, Spec.applyElementwise, sigmoidDerivativeT, Spec.sigmoidDerivativeS,
      onesT, Spec.onesLike, inLayerT, Spec.asVector, hiddenActT, Spec.hiddenActivation,
      outputActT, Spec.outputActivation, outputErrorT, Spec.outputError, hiddenErrorT,
      Spec.hiddenError, sigmoid, Spec.sigmoidS, dataOf, Finset.sum_range_one, mul_one,
      add_zero, Nat.mul_one, Nat.add_zero]
    rw [getD_replicate_one _ _ hi2]

/-- Witness for C1 at the concrete 1-1-1 network. -/
theorem C1_train_updates_match_spec_formulas_witness :
    ∃ net', backProp testNet [0] [0] = .ok net' ∧
      net'.outWeights.EqM (Spec.newOutputWeights testNet [0] [0]) ∧
      net'.hidWeights.EqM (Spec.newHiddenWeights testNet [0] [0]) :=
  C1_train_updates_match_spec_formulas testNet [0] [0] (by decide) rfl rfl

/-- C2: for every well-formed network state and input/target of the
correct lengths, the sequential `backProp` of the source and the variant
with the two weight updates performed in the opposite order both succeed
with the same final state, namely the simultaneous commit `trainT` of the
two updates computed from the pre-update weights (the hidden error having
been formed from the pre-update output weights). -/
theorem C2_update_order_irrelevant (net : MPNN) (input target : List ℝ)
    (hWF : net.WF) (hi : input.length = net.in_.toNat)
    (ht : target.length = net.out.toNat) :
    backProp net input target = .ok (trainT net input target) ∧
    backPropSwapped net input target = .ok (trainT net input target) :=
  ⟨backProp_eq net input target hWF hi ht,
   backPropSwapped_eq net input target hWF hi ht⟩

/-- Witness for C2 at the concrete 1-1-1 network. -/
theorem C2_update_order_irrelevant_witness :
    backProp testNet [0] [0] = .ok (trainT testNet [0] [0]) ∧
    backPropSwapped testNet [0] [0] = .ok (trainT testNet [0] [0]) :=
  C2_update_order_irrelevant testNet [0] [0] (by decide) rfl rfl

/-- C3: on every well-formed network built with sizes `(i, h, o)` and
every length-`i` input, the forward pass succeeds and returns a
single-column matrix of exactly `o` rows, every entry of which lies
strictly between 0 and 1. -/
theorem C3_forward_shape_and_bounds (net : MPNN) (input : List ℝ)
    (hWF : net.WF) (hi : input.length = net.in_.toNat) :
    ∃ M, forwardProp input net = .ok M ∧ M.rows = net.out.toNat ∧ M.cols = 1 ∧
      ∀ i j, i < M.rows → j < M.cols → 0 < M.data i j ∧ M.data i j < 1 := by
  refine ⟨outputActT net input, forwardProp_eq net input hWF hi, ?_, rfl, ?_⟩
  · simpa using hWF.2.2.2.2.2.1
  · intro i j _ _
    exact ⟨sigmoid_pos i j ((dotT net.outWeights (hiddenActT net input)).data i j),
      sigmoid_lt_one i j ((dotT net.outWeights (hiddenActT net input)).data i j)⟩

/-- Witness for C3 at the concrete 1-1-1 network. -/
theorem C3_forward_shape_and_bounds_witness :
    ∃ M, forwardProp [0] testNet = .ok M ∧ M.rows = testNet.out.toNat ∧ M.cols = 1 ∧
      ∀ i j, i < M.rows → j < M.cols → 0 < M.data i j ∧ M.data i j < 1 :=
  C3_forward_shape_and_bounds testNet [0] (by decide) rfl

/-- C4: the forward pass is pure with respect to the network, and
training mutates only the two weight matrices: threading the network
state through `forwardProp` returns it unchanged, and the state left by
`backProp` agrees with the original on the three size fields and the
learning rate. -/
theorem C4_frame_conditions (net : MPNN) (input target : List ℝ)
    (M : GoMat) (net₂ net' : MPNN)
    (hf : forwardPropS input net = .ok (M, net₂))
    (hb : backProp net input target = .ok net') :
    net₂ = net ∧ net'.in_ = net.in_ ∧ net'.hidden = net.hidden ∧
      net'.out = net.out ∧ net'.learnRate = net.learnRate := by
  constructor
  · unfold forwardPropS at hf
    obtain ⟨x1, -, hf⟩ := bind_eq_ok hf
    obtain ⟨x2, -, hf⟩ := bind_eq_ok hf
    obtain ⟨x3, -, hf⟩ := bind_eq_ok hf
    obtain ⟨x4, -, hf⟩ := bind_eq_ok hf
    obtain ⟨x5, -, hf⟩ := bind_eq_ok hf
    simp only [Except.ok.injEq, Prod.mk.injEq] at hf
    exact hf.2.symm
  · unfold backProp at hb
    obtain ⟨x1, -, hb⟩ := bind_eq_ok hb
    obtain ⟨x2, -, hb⟩ := bind_eq_ok hb
    obtain ⟨x3, -, hb⟩ := bind_eq_ok hb
    obtain ⟨x4, -, hb⟩ := bind_eq_ok hb
    obtain ⟨x5, -, hb⟩ := bind_eq_ok hb
    obtain ⟨x6, -, hb⟩ := bind_eq_ok hb
    obtain ⟨x7, -, hb⟩ := bind_eq_ok hb
    obtain ⟨x8, -, hb⟩ := bind_eq_ok hb
    obtain ⟨x9, -, hb⟩ := bind_eq_ok hb
    obtain ⟨x10, -, hb⟩ := bind_eq_ok hb
    obtain ⟨x11, -, hb⟩ := bind_eq_ok hb
    obtain ⟨x12, -, hb⟩ := bind_eq_ok hb
    obtain ⟨x13, -, hb⟩ := bind_eq_ok hb
    obtain ⟨x14, -, hb⟩ := bind_eq_ok hb
    obtain ⟨x15, -, hb⟩ := bind_eq_ok hb
    obtain ⟨x16, -, hb⟩ := bind_eq_ok hb
    obtain ⟨x17, -, hb⟩ := bind_eq_ok hb
    obtain ⟨x18, -, hb⟩ := bind_eq_ok hb
    simp only [Except.ok.injEq] at hb
    subst hb
    exact ⟨rfl, rfl, rfl, rfl⟩

/-- Witness for C4: a successful forward and training run on the
concrete 1-1-1 network. -/
theorem C4_frame_conditions_witness :
    testNet = testNet ∧ (trainT testNet [0] [0]).in_ = testNet.in_ ∧
      (trainT testNet [0] [0]).hidden = testNet.hidden ∧
      (trainT testNet [0] [0]).out = testNet.out ∧
      (trainT testNet [0] [0]).learnRate = testNet.learnRate :=
  C4_frame_conditions testNet [0] [0] (outputActT testNet [0]) testNet
    (trainT testNet [0] [0])
    (forwardPropS_eq testNet [0] (by decide) rfl)
    (backProp_eq testNet [0] [0] (by decide) rfl rfl)

/-- C6: for gonum-representable matrices (positive outer dimensions),
`dot` fails with the dimension-mismatch error exactly when the inner
dimensions disagree, and otherwise returns the matrix product of its
unmodified operands. -/
theorem C6_dot_dimension_check (A B : GoMat) (h1 : 0 < A.rows) (h2 : 0 < B.cols) :
    (A.cols ≠ B.rows → dot A B = .error .dimensionMismatch) ∧
    (A.cols = B.rows → dot A B = .ok (dotT A B)) := by
  constructor
  · intro h
    unfold dot
    rw [if_neg (by omega), if_pos h]
  · intro h
    exact dot_ok A B (by omega) (by omega) h

/-- Witness for C6: `dot` on a 2 × 3 and a 4 × 2 matrix raises the
dimension-mismatch error, and on a 2 × 3 and a 3 × 2 matrix returns the
product. -/
theorem C6_dot_dimension_check_witness :
    dot mat23 mat42 = .error .dimensionMismatch ∧ dot mat23 mat32 = .ok (dotT mat23 mat32) :=
  ⟨(C6_dot_dimension_check mat23 mat42 (by decide) (by decide)).1 (by decide),
   (C6_dot_dimension_check mat23 mat32 (by decide) (by decide)).2 (by decide)⟩

/-- C10: `initMPNN` reads the first three elements of its sizes slice
unconditionally: with fewer than three elements it fails with the
index-out-of-range panic, and with three or more only the first three
matter (the built network has exactly the one hidden layer the record
provides, whatever the extra elements are). -/
theorem C10_initMPNN_sizes_indexing (now1 now2 : Nat) (sizes : List Int) (lr : ℝ) :
    (sizes.length < 3 → initMPNN now1 now2 sizes lr = .error .indexOutOfRange) ∧
    (3 ≤ sizes.length →
      initMPNN now1 now2 sizes lr = initMPNN now1 now2 (sizes.take 3) lr) := by
  constructor
  · intro h
    rcases sizes with _ | ⟨a, _ | ⟨b, _ | ⟨c, rest⟩⟩⟩
    · rfl
    · rfl
    · rfl
    · simp at h
      omega
  · intro h
    rcases sizes with _ | ⟨a, _ | ⟨b, _ | ⟨c, rest⟩⟩⟩
    · simp at h
    · simp at h
    · simp at h
    · rfl

/-- Witness for C10: a two-element slice fails with index out of range; a
four-element slice behaves as its first three elements. -/
theorem C10_initMPNN_sizes_indexing_witness :
    initMPNN 0 0 [1, 2] 1 = .error .indexOutOfRange ∧
    initMPNN 0 0 [1, 1, 1, 5] 1 = initMPNN 0 0 (List.take 3 [1, 1, 1, 5]) 1 :=
  ⟨(C10_initMPNN_sizes_indexing 0 0 [1, 2] 1).1 (by decide),
   (C10_initMPNN_sizes_indexing 0 0 [1, 1, 1, 5] 1).2 (by decide)⟩

section InitLemmas

lemma unifStream_nonneg (s i : Nat) : 0 ≤ unifStream s i := by
  unfold unifStream
  positivity

lemma unifStream_lt_one (s i : Nat) : unifStream s i < 1 := by
  unfold unifStream
  rw [div_lt_one (by norm_num)]
  exact_mod_cast Nat.mod_lt _ (by norm_num)

lemma randList_length (now n : Nat) (f : ℝ) : (randList now n f).length = n := by
  simp [randList]

lemma randList_mem_bounds (now n : Nat) (f : ℝ) (hf : 0 < f) :
    ∀ x ∈ randList now n f, -(1 / Real.sqrt f) ≤ x ∧ x ≤ 1 / Real.sqrt f := by
  intro x hx
  obtain ⟨i, -, rfl⟩ := List.mem_map.mp hx
  have hs : 0 < Real.sqrt f := Real.sqrt_pos.mpr hf
  have hu0 : 0 ≤ unifStream now i := unifStream_nonneg now i
  have hu1 : unifStream now i < 1 := unifStream_lt_one now i
  have h2 : 0 ≤ 1 / Real.sqrt f - -1 / Real.sqrt f := by
    rw [neg_div, sub_neg_eq_add]
    positivity
  constructor
  · have hDu : 0 ≤ (1 / Real.sqrt f - -1 / Real.sqrt f) * unifStream now i :=
      mul_nonneg h2 hu0
    rw [neg_div] at *
    linarith
  · have hD : (1 / Real.sqrt f - -1 / Real.sqrt f) * unifStream now i ≤
        (1 / Real.sqrt f - -1 / Real.sqrt f) * 1 :=
      mul_le_mul_of_nonneg_left hu1.le h2
    rw [neg_div] at *
    linarith

lemma randList_getD_bounds (now n : Nat) (f : ℝ) (hf : 0 < f) (k : Nat) (hk : k < n) :
    -(1 / Real.sqrt f) ≤ (randList now n f).getD k 0 ∧
      (randList now n f).getD k 0 ≤ 1 / Real.sqrt f := by
  apply randList_mem_bounds now n f hf
  rw [List.getD_eq_getElem _ _ (by rw [randList_length]; omega)]
  exact List.getElem_mem _

lemma initRandArray_ok (now : Nat) (size : Int) (f : ℝ) (h : 0 ≤ size) :
    initRandArray now size f = .ok (randList now size.toNat f) := by
  unfold initRandArray
  rw [if_neg (by omega)]

lemma toNat_mul_of_nonneg {a b : Int} (ha : 0 ≤ a) (hb : 0 ≤ b) :
    (a * b).toNat = a.toNat * b.toNat := by
  obtain ⟨a, rfl⟩ := Int.eq_ofNat_of_zero_le ha
  obtain ⟨b, rfl⟩ := Int.eq_ofNat_of_zero_le hb
  rw [← Int.ofNat_mul]
  rfl

/-- Evaluation of `initMPNN` on a three-element size slice of positive
sizes: it succeeds, with each weight matrix backed by the random list
drawn with the fan-in of its source layer. -/
lemma initMPNN_pos_ok (now1 now2 : Nat) (a b c : Int) (lr : ℝ)
    (ha : 0 < a) (hb : 0 < b) (hc : 0 < c) :
    initMPNN now1 now2 [a, b, c] lr = .ok ⟨a, b, c,
      ⟨b.toNat, a.toNat, dataOf a.toNat (randList now1 (b * a).toNat (a : ℝ))⟩,
      ⟨c.toNat, b.toNat, dataOf b.toNat (randList now2 (b * c).toNat (b : ℝ))⟩, lr⟩ := by
  have e1 : initRandArray now1 (b * a) (a : ℝ) = .ok (randList now1 (b * a).toNat (a : ℝ)) :=
    initRandArray_ok _ _ _ (mul_nonneg hb.le ha.le)
  have e2 : initRandArray now2 (b * c) (b : ℝ) = .ok (randList now2 (b * c).toNat (b : ℝ)) :=
    initRandArray_ok _ _ _ (mul_nonneg hb.le hc.le)
  have n1 : NewDense b a (randList now1 (b * a).toNat (a : ℝ)) =
      .ok ⟨b.toNat, a.toNat, dataOf a.toNat (randList now1 (b * a).toNat (a : ℝ))⟩ :=
    NewDense_ok b a _ hb ha
      (by rw [randList_length, toNat_mul_of_nonneg hb.le ha.le])
  have n2 : NewDense c b (randList now2 (b * c).toNat (b : ℝ)) =
      .ok ⟨c.toNat, b.toNat, dataOf b.toNat (randList now2 (b * c).toNat (b : ℝ))⟩ :=
    NewDense_ok c b _ hc hb
      (by rw [randList_length, toNat_mul_of_nonneg hb.le hc.le, Nat.mul_comm])
  simp only [initMPNN, idx, List.get?, e1, ok_bind, n1, e2, n2]

end InitLemmas

/-- C5: every element drawn by the weight initializer with a positive
fan-in lies in the closed interval from `-1/sqrt(fanIn)` to
`+1/sqrt(fanIn)`; and `initMPNN` builds the `hidden × in` weight matrix
with fan-in `in` and the `out × hidden` weight matrix with fan-in
`hidden`, so every entry of the built network's weight matrices obeys the
corresponding bound. -/
theorem C5_initializer_bounds_and_fanin (now1 now2 : Nat) (a b c : Int) (lr : ℝ)
    (ha : 0 < a) (hb : 0 < b) (hc : 0 < c) :
    (∀ (now : Nat) (size : Int) (f : ℝ), 0 < f → ∀ l, initRandArray now size f = .ok l →
      ∀ x ∈ l, -(1 / Real.sqrt f) ≤ x ∧ x ≤ 1 / Real.sqrt f) ∧
    ∃ net', initMPNN now1 now2 [a, b, c] lr = .ok net' ∧
      net'.hidWeights.rows = b.toNat ∧ net'.hidWeights.cols = a.toNat ∧
      (∀ i j, i < b.toNat → j < a.toNat →
        -(1 / Real.sqrt (a : ℝ)) ≤ net'.hidWeights.data i j ∧
          net'.hidWeights.data i j ≤ 1 / Real.sqrt (a : ℝ)) ∧
      net'.outWeights.rows = c.toNat ∧ net'.outWeights.cols = b.toNat ∧
      (∀ i j, i < c.toNat → j < b.toNat →
        -(1 / Real.sqrt (b : ℝ)) ≤ net'.outWeights.data i j ∧
          net'.outWeights.data i j ≤ 1 / Real.sqrt (b : ℝ)) := by
  constructor
  · intro now size f hf l hok x hx
    unfold initRandArray at hok
    by_cases hs : size < 0
    · rw [if_pos hs] at hok
      simp at hok
    · rw [if_neg hs] at hok
      simp only [Except.ok.injEq] at hok
      subst hok
      exact randList_mem_bounds now size.toNat f hf x hx
  · refine ⟨_, initMPNN_pos_ok now1 now2 a b c lr ha hb hc, rfl, rfl, ?_, rfl, rfl, ?_⟩
    · intro i j hi1 hj1
      have hidx : i * a.toNat + j < (b * a).toNat := by
        rw [toNat_mul_of_nonneg hb.le ha.le]
        calc i * a.toNat + j < (i + 1) * a.toNat := by rw [add_mul, one_mul]; omega
          _ ≤ b.toNat * a.toNat := Nat.mul_le_mul_right _ (by omega)
      exact randList_getD_bounds now1 (b * a).toNat (a : ℝ) (by exact_mod_cast ha) _ hidx
    · intro i j hi1 hj1
      have hidx : i * b.toNat + j < (b * c).toNat := by
        rw [toNat_mul_of_nonneg hb.le hc.le, Nat.mul_comm b.toNat c.toNat]
        calc i * b.toNat + j < (i + 1) * b.toNat := by rw [add_mul, one_mul]; omega
          _ ≤ c.toNat * b.toNat := Nat.mul_le_mul_right _ (by omega)
      exact randList_getD_bounds now2 (b * c).toNat (b : ℝ) (by exact_mod_cast hb) _ hidx

/-- Witness for C5 at concrete sizes 1, 1, 1. -/
theorem C5_initializer_bounds_and_fanin_witness :
    (∀ (now : Nat) (size : Int) (f : ℝ), 0 < f → ∀ l, initRandArray now size f = .ok l →
      ∀ x ∈ l, -(1 / Real.sqrt f) ≤ x ∧ x ≤ 1 / Real.sqrt f) ∧
    ∃ net', initMPNN 0 0 [1, 1, 1] (1 / 10) = .ok net' ∧
      net'.hidWeights.rows = (1 : Int).toNat ∧ net'.hidWeights.cols = (1 : Int).toNat ∧
      (∀ i j, i < (1 : Int).toNat → j < (1 : Int).toNat →
        -(1 / Real.sqrt ((1 : Int) : ℝ)) ≤ net'.hidWeights.data i j ∧
          net'.hidWeights.data i j ≤ 1 / Real.sqrt ((1 : Int) : ℝ)) ∧
      net'.outWeights.rows = (1 : Int).toNat ∧ net'.outWeights.cols = (1 : Int).toNat ∧
      (∀ i j, i < (1 : Int).toNat → j < (1 : Int).toNat →
        -(1 / Real.sqrt ((1 : Int) : ℝ)) ≤ net'.outWeights.data i j ∧
          net'.outWeights.data i j ≤ 1 / Real.sqrt ((1 : Int) : ℝ)) :=
  C5_initializer_bounds_and_fanin 0 0 1 1 1 (1 / 10) (by norm_num) (by norm_num) (by norm_num)

/-- C7 counterexample: `initMPNN` performs no validation. With positive
sizes and the non-positive learning rate -1 it succeeds rather than
raising `InvalidConfiguration`; and on sizes `(0, 3, 1)` with learning
rate 0.1 it fails with the zero-length matrix-dimension panic, which is
not the `InvalidConfiguration` error the claim names. -/
theorem C7_counterexample :
    (initMPNN 0 0 [2, 3, 1] (-1)).isOk = true ∧
    initMPNN 0 0 [0, 3, 1] (1 / 10) = .error GoErr.zeroLength ∧
    GoErr.zeroLength ≠ GoErr.invalidConfiguration := by
  refine ⟨?_, rfl, by decide⟩
  rw [initMPNN_pos_ok 0 0 2 3 1 (-1) (by norm_num) (by norm_num) (by norm_num)]
  rfl

/-- C7 amended: `initMPNN` never raises `InvalidConfiguration`: with all
three sizes positive it succeeds whatever the learning rate (including
non-positive learning rates), and `initializeNetwork(0, 3, 1, 0.1)`
instead fails with the matrix library's zero-length dimension error. -/
theorem C7_no_validation (now1 now2 : Nat) (a b c : Int) (lr : ℝ)
    (ha : 0 < a) (hb : 0 < b) (hc : 0 < c) :
    (initMPNN now1 now2 [a, b, c] lr).isOk = true ∧
    initMPNN now1 now2 [0, 3, 1] (1 / 10) = .error GoErr.zeroLength := by
  constructor
  · rw [initMPNN_pos_ok now1 now2 a b c lr ha hb hc]
    rfl
  · rfl

/-- Witness for the amended C7, with the non-positive learning rate -1. -/
theorem C7_no_validation_witness :
    (initMPNN 0 0 [2, 3, 1] (-1)).isOk = true ∧
    initMPNN 0 0 [0, 3, 1] (1 / 10) = .error GoErr.zeroLength :=
  C7_no_validation 0 0 2 3 1 (-1) (by norm_num) (by norm_num) (by norm_num)

/-- C8 counterexample: `initRandArray` takes no seed argument — its seed
comes from the wall clock, modelled as the explicit first parameter. Two
calls with identical program arguments (size 1, fan-in 1) at different
clock instants return different arrays, so the initializer's output is
not a function of its arguments and no fixed seed can be supplied through
its interface. -/
theorem C8_counterexample : initRandArray 0 1 1 ≠ initRandArray 1 1 1 := by
  intro h
  rw [initRandArray_ok 0 1 1 (by norm_num), initRandArray_ok 1 1 1 (by norm_num)] at h
  simp only [Except.ok.injEq] at h
  have h0 := congrArg (fun l => l.getD 0 0) h
  simp only [randList, Int.toNat_one, List.range_succ, List.range_zero, List.nil_append,
    List.map_cons, List.map_nil, List.getD_cons_zero] at h0
  rw [Real.sqrt_one] at h0
  norm_num [unifStream] at h0

/-- C8 amended: the entropy source is the only hidden input of
`initRandArray`; holding it fixed (equal clock values standing for an
injected fixed seed), two calls with identical arguments produce
identical results. -/
theorem C8_fixed_seed_deterministic (now1 now2 : Nat) (size : Int) (fromSize : ℝ)
    (h : now1 = now2) :
    initRandArray now1 size fromSize = initRandArray now2 size fromSize := by
  rw [h]

/-- Witness for the amended C8. -/
theorem C8_fixed_seed_deterministic_witness :
    initRandArray 5 3 2 = initRandArray 5 3 2 :=
  C8_fixed_seed_deterministic 5 5 3 2 rfl

section StationaryLemmas

/-- Closed form of the spec's error norm on a well-formed network. -/
lemma trainError_eq (m : MPNN) (input target : List ℝ) (hm : m.WF)
    (him : input.length = m.in_.toNat) :
    Spec.trainError m input target =
      Real.sqrt (∑ i in Finset.range (outputActT m input).rows,
        ∑ j in Finset.range (outputActT m input).cols,
          ((Spec.asVector target).data i j - (outputActT m input).data i j) ^ 2) := by
  unfold Spec.trainError
  rw [forwardProp_eq m input hm him]

/-- Training at a stationary point: when the prediction already equals
the target on every output coordinate, both weight updates of `backProp`
vanish entrywise and the error norm is left exactly unchanged. -/
lemma backProp_stationary (net : MPNN) (input target : List ℝ)
    (hWF : net.WF) (hi : input.length = net.in_.toNat)
    (ht : target.length = net.out.toNat)
    (hstat : ∀ i, i < net.outWeights.rows →
      (inLayerT target).data i 0 = (outputActT net input).data i 0) :
    (trainT net input target).outWeights.EqM net.outWeights ∧
    (trainT net input target).hidWeights.EqM net.hidWeights ∧
    Spec.trainError (trainT net input target) input target =
      Spec.trainError net input target := by
  obtain ⟨hI, hH, hO, w1, w2, w3, w4⟩ := hWF
  have hWF' : (trainT net input target).WF := ⟨hI, hH, hO, w1, w2, w3, w4⟩
  have eout : (trainT net input target).outWeights.EqM net.outWeights := by
    refine ⟨rfl, rfl, ?_⟩
    intro i j hi1 hj1
    have hi2 : i < net.outWeights.rows := hi1
    have hz : (outputErrorT net input target).data i 0 = 0 := by
      show (inLayerT target).data i 0 - (outputActT net input).data i 0 = 0
      rw [hstat i hi2, sub_self]
    show (newOutT net input target).data i j = net.outWeights.data i j
    simp only [newOutT, addT, scaleT, dotT, multT, transposeT, multT_cols, outputErrorT_cols,
      Finset.sum_range_one]
    rw [hz]
    ring
  have ehid : (trainT net input target).hidWeights.EqM net.hidWeights := by
    refine ⟨rfl, rfl, ?_⟩
    intro i j hi1 hj1
    have hzsum : (hiddenErrorT net input target).data i 0 = 0 := by
      show (∑ k in Finset.range (transposeT net.outWeights).cols,
        (transposeT net.outWeights).data i k * (outputErrorT net input target).data k 0) = 0
      apply Finset.sum_eq_zero
      intro k hk
      have hk2 : k < net.outWeights.rows := by simpa using Finset.mem_range.mp hk
      have hzk : (outputErrorT net input target).data k 0 = 0 := by
        show (inLayerT target).data k 0 - (outputActT net input).data k 0 = 0
        rw [hstat k hk2, sub_self]
      rw [hzk, mul_zero]
    show (newHidT net input target).data i j = net.hidWeights.data i j
    simp only [newHidT, addT, scaleT, dotT, multT, transposeT, multT_cols, hiddenErrorT_cols,
      Finset.sum_range_one]
    rw [hzsum]
    ring
  refine ⟨eout, ehid, ?_⟩
  have hHA : ∀ k j2, k < net.hidWeights.rows →
      (hiddenActT (trainT net input target) input).data k j2 =
        (hiddenActT net input).data k j2 := by
    intro k j2 hk
    show sigmoid k j2 (∑ k2 in Finset.range net.hidWeights.cols,
        (trainT net input target).hidWeights.data k k2 * (inLayerT input).data k2 j2) =
      sigmoid k j2 (∑ k2 in Finset.range net.hidWeights.cols,
        net.hidWeights.data k k2 * (inLayerT input).data k2 j2)
    congr 1
    apply Finset.sum_congr rfl
    intro k2 hk2
    rw [ehid.2.2 k k2 hk (Finset.mem_range.mp hk2)]
  have hOA : ∀ i j2, i < net.outWeights.rows →
      (outputActT (trainT net input target) input).data i j2 =
        (outputActT net input).data i j2 := by
    intro i j2 hi2
    show sigmoid i j2 (∑ k in Finset.range net.outWeights.cols,
        (trainT net input target).outWeights.data i k *
          (hiddenActT (trainT net input target) input).data k j2) =
      sigmoid i j2 (∑ k in Finset.range net.outWeights.cols,
        net.outWeights.data i k * (hiddenActT net input).data k j2)
    congr 1
    apply Finset.sum_congr rfl
    intro k hk
    have hk2 : k < net.hidWeights.rows := by
      have := Finset.mem_range.mp hk
      omega
    rw [eout.2.2 i k hi2 (Finset.mem_range.mp hk), hHA k j2 hk2]
  rw [trainError_eq (trainT net input target) input target hWF' hi,
    trainError_eq net input target ⟨hI, hH, hO, w1, w2, w3, w4⟩ hi]
  congr 1
  show (∑ i in Finset.range net.outWeights.rows, ∑ j in Finset.range 1,
      ((Spec.asVector target).data i j -
        (outputActT (trainT net input target) input).data i j) ^ 2) =
    ∑ i in Finset.range net.outWeights.rows, ∑ j in Finset.range 1,
      ((Spec.asVector target).data i j - (outputActT net input).data i j) ^ 2
  apply Finset.sum_congr rfl
  intro i hi2
  apply Finset.sum_congr rfl
  intro j hj2
  rw [hOA i j (Finset.mem_range.mp hi2)]

/-- Stationarity of the concrete 1-1-1 zero-weight network at input 0 and
target one half: the prediction is exactly the target. -/
lemma testNet_stationary : ∀ i, i < testNet.outWeights.rows →
    (inLayerT [(1:ℝ)/2]).data i 0 = (outputActT testNet [0]).data i 0 := by
  intro i hi2
  have hi0 : i = 0 := by
    simp only [testNet, zeroMat] at hi2
    omega
  subst hi0
  simp [inLayerT, dataOf, outputActT, applyT, dotT, hiddenActT, testNet, zeroMat,
    sigmoid, Real.exp_zero]
  norm_num

end StationaryLemmas

/-- C9 counterexample: with the concrete 1-1-1 zero-weight network
(learning rate 0.1, inside the claim's range), input 0 and target one
half, one call to `backProp` leaves the error norm exactly equal to its
previous value — it does not strictly decrease, refuting the claim for
all network states and training pairs. -/
theorem C9_counterexample :
    ((1:ℝ)/100 ≤ testNet.learnRate ∧ testNet.learnRate ≤ 1/2) ∧
    (backProp testNet [0] [(1:ℝ)/2]).map (fun n => Spec.trainError n [0] [(1:ℝ)/2]) =
      .ok (Spec.trainError testNet [0] [(1:ℝ)/2]) := by
  refine ⟨⟨by norm_num [testNet], by norm_num [testNet]⟩, ?_⟩
  obtain ⟨-, -, h3⟩ :=
    backProp_stationary testNet [0] [(1:ℝ)/2] (by decide) rfl rfl testNet_stationary
  rw [backProp_eq testNet [0] [(1:ℝ)/2] (by decide) rfl rfl]
  simp only [Except.map]
  rw [h3]

/-- C9 amended: repeated training on one pair need not strictly decrease
the error norm even for a learning rate between 0.01 and 0.5: at any
state whose prediction already equals the target, `backProp` succeeds but
leaves both weight matrices entrywise unchanged and the error norm
exactly unchanged, so the decrease is not strict there (and remains
non-strict forever after). -/
theorem C9_no_strict_decrease_at_stationary (net : MPNN) (input target : List ℝ)
    (hWF : net.WF) (hi : input.length = net.in_.toNat)
    (ht : target.length = net.out.toNat)
    (hr1 : (1:ℝ)/100 ≤ net.learnRate) (hr2 : net.learnRate ≤ 1/2)
    (hstat : ∀ i, i < net.outWeights.rows →
      (inLayerT target).data i 0 = (outputActT net input).data i 0) :
    ∃ net', backProp net input target = .ok net' ∧
      net'.outWeights.EqM net.outWeights ∧ net'.hidWeights.EqM net.hidWeights ∧
      Spec.trainError net' input target = Spec.trainError net input target := by
  obtain ⟨h1, h2, h3⟩ := backProp_stationary net input target hWF hi ht hstat
  exact ⟨trainT net input target, backProp_eq net input target hWF hi ht, h1, h2, h3⟩

/-- Witness for the amended C9 at the concrete stationary instance. -/
theorem C9_no_strict_decrease_at_stationary_witness :
    ∃ net', backProp testNet [0] [(1:ℝ)/2] = .ok net' ∧
      net'.outWeights.EqM testNet.outWeights ∧ net'.hidWeights.EqM testNet.hidWeights ∧
      Spec.trainError net' [0] [(1:ℝ)/2] = Spec.trainError testNet [0] [(1:ℝ)/2] :=
  C9_no_strict_decrease_at_stationary testNet [0] [(1:ℝ)/2] (by decide) rfl rfl
    (by norm_num [testNet]) (by norm_num [testNet]) testNet_stationary

end Vipari
